import Mathlib

/-!
Verification development for the qwen-code-proxy repository.

The development shallowly embeds the two core components of the program:

* `auth.py` / `TokenManager.get_api_key`: a thread-safe credential cache that
  reads a bearer token from a JSON credentials file, modelled as a pure state
  transformer `getApiKey : CacheState → FileState → GetResult`.
* `main.py` / `ProxyRunner`: a process supervisor with a bounded retry loop
  (`run_with_retry`), a signal handler, and a child-process cleanup protocol,
  modelled as `runWithRetry` producing a result plus an event trace, together
  with `signalHandler` and `finallyCleanup` state functions.
-/

/-- JSON values, as produced by `json.load` in `auth.py`. Numbers are modelled
as integers since only truthiness of the value matters to the program. -/
inductive Json where
  | null
  | bool (b : Bool)
  | num (n : Int)
  | str (s : String)
  | arr (elems : List Json)
  | obj (fields : List (String × Json))

/-- Python whitespace as recognised by `str.strip()` (ASCII subset: space,
tab, newline, carriage return, vertical tab, form feed). -/
def isPySpace (c : Char) : Bool :=
  c == ' ' || c == '\t' || c == '\n' || c == '\r' || c == Char.ofNat 11 || c == Char.ofNat 12

/-- Python `str.strip()`: remove leading and trailing whitespace. -/
def pyStrip (s : String) : String :=
  ⟨((s.data.dropWhile isPySpace).reverse.dropWhile isPySpace).reverse⟩

/-- Python truthiness of a JSON value, as tested by `if not token` in
`auth.py` line 92. -/
def jsonTruthy : Json → Bool
  | Json.null => false
  | Json.bool b => b
  | Json.num n => n != 0
  | Json.str s => s != ""
  | Json.arr elems => !elems.isEmpty
  | Json.obj fields => !fields.isEmpty

/-- `creds.get(key)` on the dictionary parsed from the credentials file. -/
def lookupField : List (String × Json) → String → Option Json
  | [], _ => none
  | (k, v) :: rest, key => if k = key then some v else lookupField rest key

/-- State of the credentials file on disk at the moment of a `get_api_key`
call: whether it exists, whether the caller may open it (a denied open raises
`PermissionError`), its `st_mtime`, and the result of parsing its content
(`none` models a `json.JSONDecodeError`). -/
structure FileState where
  fileExists : Bool
  readable : Bool
  mtime : Int
  parsed : Option Json

/-- The mutable cache of `TokenManager`: `_cached_token` and
`_last_modified_time` (`auth.py` lines 36-37). -/
structure CacheState where
  cachedToken : Option String
  lastModifiedTime : Int
deriving DecidableEq

/-- The state set up by `TokenManager.__init__`. -/
def initialCache : CacheState := ⟨none, 0⟩

/-- Result of one `get_api_key` call: the returned value, the cache state
after the call, how many times the file content was opened and parsed
(`json.load`), and whether `_cache_lock` was acquired. -/
structure GetResult where
  token : Option String
  cache : CacheState
  parses : Nat
  lockAcquired : Bool
deriving DecidableEq

/-- The validation chain of `auth.py` lines 90-99 applied to
`creds.get("access_token")`: a missing or Python-falsy value, a non-string
value, and a string that is empty after `strip()` are all rejected. -/
def validateToken : Option Json → Option String
  | none => none
  | some t =>
    if jsonTruthy t = false then none
    else
      match t with
      | Json.str s => if (pyStrip s).length = 0 then none else some s
      | _ => none

/-- The read-and-parse section of `get_api_key` (`auth.py` lines 87-116),
entered when the cached token cannot be used. A `PermissionError` at `open`
returns `None` before any parse; a parse failure returns `None`; on success
both cache fields are updated together and the token is returned. -/
def refreshFromFile (st : CacheState) (fs : FileState) : GetResult :=
  if fs.readable = false then ⟨none, st, 0, true⟩
  else
    match fs.parsed with
    | none => ⟨none, st, 1, true⟩
    | some creds =>
      match creds with
      | Json.obj fields =>
        match validateToken (lookupField fields "access_token") with
        | none => ⟨none, st, 1, true⟩
        | some s => ⟨some s, ⟨some s, fs.mtime⟩, 1, true⟩
      | _ => ⟨none, st, 1, true⟩

/-- `TokenManager.get_api_key` (`auth.py` lines 40-116): if the file does not
exist, return `None` before touching the lock; otherwise, under the lock,
return the cached token when one exists and the file's mtime is ≤ the cached
mtime, else re-read the file. -/
def getApiKey (st : CacheState) (fs : FileState) : GetResult :=
  if fs.fileExists = false then ⟨none, st, 0, false⟩
  else if st.cachedToken.isSome = true ∧ fs.mtime ≤ st.lastModifiedTime then
    ⟨st.cachedToken, st, 0, true⟩
  else refreshFromFile st fs

/-- Modelled from the spec: "`CredentialCache.get()` returns the token if and
only if the file exists, parses as valid structured data, and contains a
non-empty string field". The comparator for claim C1, written from the spec's
words: the token is returned exactly when the file exists, is readable, parses
as a JSON object whose `access_token` field is a string that is non-empty
after trimming. -/
def specTokenOf (fs : FileState) : Option String :=
  if fs.fileExists = true ∧ fs.readable = true then
    match fs.parsed with
    | some (Json.obj fields) =>
      match lookupField fields "access_token" with
      | some (Json.str s) => if (pyStrip s).length ≠ 0 then some s else none
      | _ => none
    | _ => none
  else none

/-- The cache invariant of the credential cache: any cached token is
non-empty after stripping. -/
def cacheInv (st : CacheState) : Prop :=
  ∀ t, st.cachedToken = some t → (pyStrip t).length ≠ 0

/-- The outcome of one `run_proxy` call as seen by `run_with_retry`
(`main.py` lines 186-229): a normal return, a `SystemExit` with a code, a
`KeyboardInterrupt`, or any other exception. -/
inductive Outcome where
  | ok
  | exit (c : Int)
  | kbint
  | err
deriving DecidableEq

/-- Observable events of the retry loop: invoking `run_proxy` for attempt
`i`, and `time.sleep(retry_delay)`. -/
inductive Event where
  | spawn (i : Nat)
  | sleep (delay : ℚ)
deriving DecidableEq

/-- The body of the `for attempt in range(max_retries + 1)` loop of
`run_with_retry` (`main.py` lines 186-229). `fuel` is the number of loop
iterations remaining, `attempt` the current index; `sdBefore i` (resp.
`sdAfter i`) is the value of `shutdown_requested` observed at the top-of-loop
check of iteration `i` (resp. at the check made after attempt `i` finished).
Returns the function's result — `Except.error o` models the exception `o`
propagating out of `run_with_retry` — and the trace of events. -/
def runWithRetryLoop (maxRetries : Nat) (retryDelay : ℚ) (attempts : Nat → Outcome)
    (sdBefore sdAfter : Nat → Bool) : Nat → Nat → Except Outcome Unit × List Event
  | 0, _ => (Except.ok (), [])
  | fuel + 1, attempt =>
    if sdBefore attempt then (Except.ok (), [])
    else
      match attempts attempt with
      | Outcome.ok => (Except.ok (), [Event.spawn attempt])
      | Outcome.exit c =>
        if c = 0 then (Except.ok (), [Event.spawn attempt])
        else if sdAfter attempt then (Except.ok (), [Event.spawn attempt])
        else if attempt < maxRetries then
          let next := runWithRetryLoop maxRetries retryDelay attempts sdBefore sdAfter
            fuel (attempt + 1)
          (next.1, Event.spawn attempt :: Event.sleep retryDelay :: next.2)
        else (Except.error (Outcome.exit c), [Event.spawn attempt])
      | Outcome.kbint => (Except.ok (), [Event.spawn attempt])
      | Outcome.err =>
        if sdAfter attempt then (Except.ok (), [Event.spawn attempt])
        else if attempt < maxRetries then
          let next := runWithRetryLoop maxRetries retryDelay attempts sdBefore sdAfter
            fuel (attempt + 1)
          (next.1, Event.spawn attempt :: Event.sleep retryDelay :: next.2)
        else (Except.error Outcome.err, [Event.spawn attempt])

/-- `ProxyRunner.run_with_retry` (`main.py` lines 168-229): the loop runs for
at most `max_retries + 1` iterations starting at attempt 0. -/
def runWithRetry (maxRetries : Nat) (retryDelay : ℚ) (attempts : Nat → Outcome)
    (sdBefore sdAfter : Nat → Bool) : Except Outcome Unit × List Event :=
  runWithRetryLoop maxRetries retryDelay attempts sdBefore sdAfter (maxRetries + 1) 0

/-- An attempt outcome that `run_with_retry` treats as a failure: a non-zero
`SystemExit` or a generic exception. -/
def Fails : Outcome → Prop
  | Outcome.ok => False
  | Outcome.exit c => c ≠ 0
  | Outcome.kbint => False
  | Outcome.err => True

/-- The event trace of a run in which every attempt fails: `spawn k`,
`sleep`, `spawn (k+1)`, `sleep`, …, ending with a final spawn after which the
failure propagates with no further sleep. `len` counts the sleeps. -/
def failEventTrace (retryDelay : ℚ) : Nat → Nat → List Event
  | k, 0 => [Event.spawn k]
  | k, len + 1 => Event.spawn k :: Event.sleep retryDelay :: failEventTrace retryDelay (k + 1) len

/-- Number of `run_proxy` invocations recorded in a trace. -/
def spawnCount : List Event → Nat
  | [] => 0
  | Event.spawn _ :: rest => spawnCount rest + 1
  | Event.sleep _ :: rest => spawnCount rest

/-- Number of retry-delay sleeps recorded in a trace. -/
def sleepCount : List Event → Nat
  | [] => 0
  | Event.sleep _ :: rest => sleepCount rest + 1
  | Event.spawn _ :: rest => sleepCount rest

/-- The environment one `run_proxy` attempt executes in: the value returned
by `get_api_key()`, whether `subprocess.Popen` succeeds, and the exit code
the child returns from `wait()` if it is spawned. -/
structure AttemptEnv where
  apiKey : Option String
  spawnOk : Bool
  childExit : Int
deriving DecidableEq

/-- `ProxyRunner.run_proxy` (`main.py` lines 59-141) as seen by the retry
loop: no key → `sys.exit(1)`; `Popen` failure → `sys.exit(1)`; child exits
non-zero → `sys.exit(return_code)`; child exits 0 → normal return. -/
def runProxyOutcome (e : AttemptEnv) : Outcome :=
  match e.apiKey with
  | none => Outcome.exit 1
  | some _ =>
    if e.spawnOk = false then Outcome.exit 1
    else if e.childExit ≠ 0 then Outcome.exit e.childExit
    else Outcome.ok

/-- Whether `run_proxy` reaches the `subprocess.Popen` call: it does exactly
when a key was retrieved (`main.py` lines 82-85 exit first otherwise). -/
def spawnAttempted (e : AttemptEnv) : Bool := e.apiKey.isSome

/-- The supervisor process's exit status for a given `run_with_retry` result:
a normal return exits 0, a propagated `SystemExit c` exits with `c`, and any
other uncaught exception makes the interpreter exit 1. -/
def exitStatus : Except Outcome Unit → Int
  | Except.ok _ => 0
  | Except.error (Outcome.exit c) => c
  | Except.error _ => 1

/-- Requests issued to the child process during cleanup. -/
inductive ChildAction where
  | terminate
  | waitGrace (t : Int)
  | kill
deriving DecidableEq

/-- The termination protocol shared by `run_proxy`'s `finally` block
(`main.py` lines 131-141) and the signal handler (lines 157-165): the child
handle is `some alive?`; if the handle is set and the child still runs,
terminate it, wait up to 5 seconds, then kill if the grace period expires.
`exitsInGrace` says whether the child exits within the grace period. Returns
the handle afterwards — note it is never reset to `none` — and the actions
issued. -/
def finallyCleanup (child : Option Bool) (exitsInGrace : Bool) : Option Bool × List ChildAction :=
  match child with
  | some true =>
    (some false,
      if exitsInGrace then [ChildAction.terminate, ChildAction.waitGrace 5]
      else [ChildAction.terminate, ChildAction.waitGrace 5, ChildAction.kill])
  | other => (other, [])

/-- The value of `self.process` after one full `run_proxy` call (`main.py`
lines 59-141), starting from handle `child`: an auth failure exits before the
`try`, so nothing changes; a `Popen` failure leaves the old handle and runs
the `finally` block; a successful spawn waits for the child (the handle then
refers to an exited process) and runs the `finally` block. -/
def runProxyProcessAfter (child : Option Bool) (e : AttemptEnv) (exitsInGrace : Bool) :
    Option Bool :=
  match e.apiKey with
  | none => child
  | some _ =>
    if e.spawnOk = false then (finallyCleanup child exitsInGrace).1
    else (finallyCleanup (some false) exitsInGrace).1

/-- The mutable flags of `ProxyRunner` that the signal handler touches:
`self.process` (as `some alive?`, or `none`), `self.running`, and
`self.shutdown_requested`. -/
structure RunnerFlags where
  processAlive : Option Bool
  running : Bool
  shutdownRequested : Bool
deriving DecidableEq

/-- What one signal-handler invocation produces: the flags afterwards, the
child actions issued, and whether the handler exited the supervisor's own
process. -/
structure HandlerResult where
  flags : RunnerFlags
  actions : List ChildAction
  exitsOwnProcess : Bool
deriving DecidableEq

/-- `ProxyRunner._signal_handler` (`main.py` lines 143-166): set the shutdown
flag, clear `running`, and if a child is recorded and alive run the
terminate/grace/kill sequence. It deliberately never calls `sys.exit`. -/
def signalHandler (st : RunnerFlags) (exitsInGrace : Bool) : HandlerResult :=
  let cleaned := finallyCleanup st.processAlive exitsInGrace
  ⟨⟨cleaned.1, false, true⟩, cleaned.2, false⟩

theorem pyStrip_length_ne_zero {s : String} (h : (pyStrip s).length ≠ 0) : s ≠ "" := by
  intro hs
  subst hs
  exact h (by decide)

/-- The validation chain accepts exactly the strings that are non-empty after
stripping: the truthiness test is subsumed by the strip test. -/
theorem validateToken_eq_spec (o : Option Json) :
    validateToken o =
      match o with
      | some (Json.str s) => if (pyStrip s).length ≠ 0 then some s else none
      | _ => none := by
  match o with
  | none => rfl
  | some Json.null => rfl
  | some (Json.bool b) => cases b <;> rfl
  | some (Json.num n) =>
    by_cases hn : n = 0 <;> simp [validateToken, jsonTruthy, hn]
  | some (Json.arr elems) => cases elems <;> rfl
  | some (Json.obj fields) => cases fields <;> rfl
  | some (Json.str s) =>
    by_cases hs : (pyStrip s).length = 0
    · by_cases he : s = ""
      · subst he; rfl
      · simp [validateToken, jsonTruthy, he, hs]
    · have hne : s ≠ "" := pyStrip_length_ne_zero hs
      simp [validateToken, jsonTruthy, hne, hs]

theorem validateToken_eq_some {o : Option Json} {s : String} :
    validateToken o = some s ↔ o = some (Json.str s) ∧ (pyStrip s).length ≠ 0 := by
  rw [validateToken_eq_spec]
  constructor
  · intro h
    match o with
    | none => simp at h
    | some Json.null | some (Json.bool _) | some (Json.num _)
    | some (Json.arr _) | some (Json.obj _) => simp at h
    | some (Json.str u) =>
      by_cases hu : (pyStrip u).length = 0
      · simp [hu] at h
      · simp [hu] at h
        subst h
        exact ⟨rfl, hu⟩
  · rintro ⟨rfl, hs⟩
    simp [hs]

/-- The token returned by the refresh path, in closed form. -/
theorem refreshFromFile_token (st : CacheState) (fs : FileState) :
    (refreshFromFile st fs).token =
      if fs.readable = true then
        match fs.parsed with
        | some (Json.obj fields) => validateToken (lookupField fields "access_token")
        | _ => none
      else none := by
  rcases fs with ⟨e, r, m, p⟩
  cases r
  · simp [refreshFromFile]
  · match p with
    | none => simp [refreshFromFile]
    | some Json.null | some (Json.bool _) | some (Json.num _)
    | some (Json.arr _) | some (Json.str _) => simp [refreshFromFile]
    | some (Json.obj fields) =>
      rcases hv : validateToken (lookupField fields "access_token") with _ | s <;>
        simp [refreshFromFile, hv]

/-- Claim C1: for every state of the credential file, `get_api_key` starting
from the initial (empty) cache returns the token if and only if the file
exists, is readable, parses as valid JSON, and contains an `access_token`
field holding a string that is non-empty after trimming; in every other case
it returns `None`. Stated as equality with the spec-side comparator
`specTokenOf`. -/
theorem get_api_key_iff_valid_credentials (fs : FileState) :
    (getApiKey initialCache fs).token = specTokenOf fs := by
  rcases fs with ⟨e, r, m, p⟩
  cases e
  · simp [getApiKey, specTokenOf, initialCache]
  · rw [show getApiKey initialCache ⟨true, r, m, p⟩ =
        refreshFromFile initialCache ⟨true, r, m, p⟩ by
      simp [getApiKey, initialCache, Option.isSome]]
    rw [refreshFromFile_token]
    cases r
    · simp [specTokenOf]
    · simp only [specTokenOf, eq_self_iff_true, and_self, if_true]
      match p with
      | none => rfl
      | some Json.null | some (Json.bool _) | some (Json.num _)
      | some (Json.arr _) | some (Json.str _) => rfl
      | some (Json.obj fields) =>
        show validateToken (lookupField fields "access_token") = _
        rw [validateToken_eq_spec]


/-- Every branch of the refresh path either fails leaving the cache unchanged,
or succeeds with a validated token and both cache fields updated together. -/
theorem refreshFromFile_shape (st : CacheState) (fs : FileState) :
    ((refreshFromFile st fs).token = none ∧ (refreshFromFile st fs).cache = st) ∨
    (∃ s, (refreshFromFile st fs).token = some s ∧
      (refreshFromFile st fs).cache = ⟨some s, fs.mtime⟩ ∧
      (refreshFromFile st fs).lockAcquired = true ∧
      (refreshFromFile st fs).parses = 1 ∧
      ∃ fields, fs.parsed = some (Json.obj fields) ∧
        lookupField fields "access_token" = some (Json.str s) ∧
        (pyStrip s).length ≠ 0) := by
  rcases fs with ⟨e, r, m, p⟩
  cases r
  · left; simp [refreshFromFile]
  · match p with
    | none => left; simp [refreshFromFile]
    | some Json.null | some (Json.bool _) | some (Json.num _)
    | some (Json.arr _) | some (Json.str _) => left; simp [refreshFromFile]
    | some (Json.obj fields) =>
      rcases hv : validateToken (lookupField fields "access_token") with _ | s
      · left; simp [refreshFromFile, hv]
      · right
        obtain ⟨hl, hlen⟩ := validateToken_eq_some.mp hv
        exact ⟨s, by simp [refreshFromFile, hv], by simp [refreshFromFile, hv],
          by simp [refreshFromFile, hv], by simp [refreshFromFile, hv],
          fields, rfl, hl, hlen⟩

theorem refreshFromFile_parses_le_one (st : CacheState) (fs : FileState) :
    (refreshFromFile st fs).parses ≤ 1 := by
  rw [refreshFromFile]
  repeat' split
  all_goals simp

/-- `get_api_key` takes exactly one of three branches: fail before the lock
because the file is missing, return the cached token, or refresh. -/
theorem getApiKey_shape (st : CacheState) (fs : FileState) :
    (fs.fileExists = false ∧ getApiKey st fs = ⟨none, st, 0, false⟩) ∨
    (fs.fileExists = true ∧ fs.mtime ≤ st.lastModifiedTime ∧
      ∃ t, st.cachedToken = some t ∧ getApiKey st fs = ⟨some t, st, 0, true⟩) ∨
    (fs.fileExists = true ∧ getApiKey st fs = refreshFromFile st fs) := by
  rw [getApiKey]
  split
  · rename_i he
    left; exact ⟨he, rfl⟩
  · rename_i he
    have he' : fs.fileExists = true := by
      revert he; cases fs.fileExists <;> simp
    split
    · rename_i hc
      obtain ⟨hs, hm⟩ := hc
      right; left
      rcases ho : st.cachedToken with _ | t
      · rw [ho] at hs; simp at hs
      · exact ⟨he', hm, t, rfl, rfl⟩
    · right; right; exact ⟨he', rfl⟩

theorem getApiKey_parses_le_one (st : CacheState) (fs : FileState) :
    (getApiKey st fs).parses ≤ 1 := by
  rcases getApiKey_shape st fs with ⟨_, h⟩ | ⟨_, _, t, _, h⟩ | ⟨_, h⟩ <;> rw [h]
  · simp
  · simp
  · exact refreshFromFile_parses_le_one st fs

/-- A successful call implies the file exists and leaves a cache whose token
is the returned one and whose recorded mtime is at least the file's mtime. -/
theorem getApiKey_token_some {st : CacheState} {fs : FileState} {t : String}
    (h : (getApiKey st fs).token = some t) :
    fs.fileExists = true ∧ (getApiKey st fs).cache.cachedToken = some t ∧
      fs.mtime ≤ (getApiKey st fs).cache.lastModifiedTime := by
  rcases getApiKey_shape st fs with ⟨_, hg⟩ | ⟨he, hm, u, hu, hg⟩ | ⟨he, hg⟩
  · rw [hg] at h; exact absurd h (by simp)
  · rw [hg] at h ⊢
    simp only at h
    injection h with h
    subst h
    exact ⟨he, hu, hm⟩
  · rw [hg] at h ⊢
    rcases refreshFromFile_shape st fs with ⟨hn, _⟩ | ⟨s, hs, hcache, _, _, _⟩
    · rw [hn] at h; exact absurd h (by simp)
    · rw [hs] at h
      injection h with h
      subst h
      rw [hcache]
      exact ⟨he, rfl, le_refl _⟩

/-- Claim C2: when a cached token exists and the file's current mtime is ≤
the recorded mtime, `get_api_key` returns the cached token unchanged with no
re-read; consequently, once a call returns a token, an immediate second call
on the unmodified file returns the identical token with zero parses, the two
calls parsing the file at most once in total. -/
theorem get_api_key_cache_hit_idempotent :
    (∀ (st : CacheState) (fs : FileState) (t : String),
        fs.fileExists = true → st.cachedToken = some t →
        fs.mtime ≤ st.lastModifiedTime →
        getApiKey st fs = ⟨some t, st, 0, true⟩) ∧
    (∀ (st : CacheState) (fs : FileState) (t : String),
        (getApiKey st fs).token = some t →
        (getApiKey (getApiKey st fs).cache fs).token = some t ∧
        (getApiKey (getApiKey st fs).cache fs).parses = 0 ∧
        (getApiKey st fs).parses ≤ 1) := by
  have hit : ∀ (st : CacheState) (fs : FileState) (t : String),
      fs.fileExists = true → st.cachedToken = some t →
      fs.mtime ≤ st.lastModifiedTime →
      getApiKey st fs = ⟨some t, st, 0, true⟩ := by
    intro st fs t he hc hm
    rw [getApiKey, if_neg (by simp [he]), if_pos ⟨by simp [hc], hm⟩, hc]
  refine ⟨hit, ?_⟩
  intro st fs t h
  obtain ⟨he, hc, hm⟩ := getApiKey_token_some h
  have h2 := hit _ fs t he hc hm
  rw [h2]
  exact ⟨rfl, rfl, getApiKey_parses_le_one st fs⟩

/-- Claim C4: the cache invariant is preserved by every call; every failure
exit of `get_api_key` leaves the cached pair unchanged; and on a refreshing
success both cached fields are updated together, under the lock, to the token
parsed from the file's valid JSON content. -/
theorem get_api_key_cache_invariant :
    (∀ (st : CacheState) (fs : FileState),
        (getApiKey st fs).token = none → (getApiKey st fs).cache = st) ∧
    (∀ (st : CacheState) (fs : FileState),
        cacheInv st → cacheInv (getApiKey st fs).cache) ∧
    (∀ (st : CacheState) (fs : FileState) (t : String),
        (getApiKey st fs).token = some t → (getApiKey st fs).cache ≠ st →
        (getApiKey st fs).cache = ⟨some t, fs.mtime⟩ ∧
        (getApiKey st fs).lockAcquired = true ∧
        ∃ fields, fs.parsed = some (Json.obj fields) ∧
          lookupField fields "access_token" = some (Json.str t) ∧
          (pyStrip t).length ≠ 0) := by
  refine ⟨?_, ?_, ?_⟩
  · intro st fs h
    rcases getApiKey_shape st fs with ⟨_, hg⟩ | ⟨_, _, u, _, hg⟩ | ⟨_, hg⟩
    · rw [hg]
    · rw [hg] at h; simp at h
    · rw [hg] at h ⊢
      rcases refreshFromFile_shape st fs with ⟨_, hcache⟩ | ⟨s, hs, _⟩
      · exact hcache
      · rw [hs] at h; exact absurd h (by simp)
  · intro st fs hinv
    rcases getApiKey_shape st fs with ⟨_, hg⟩ | ⟨_, _, u, _, hg⟩ | ⟨_, hg⟩ <;> rw [hg]
    · exact hinv
    · exact hinv
    · rcases refreshFromFile_shape st fs with ⟨_, hcache⟩ | ⟨s, _, hcache, _, _, _, _, _, hlen⟩
      · rw [hcache]; exact hinv
      · rw [hcache]
        intro u hu
        injection hu with hu
        subst hu
        exact hlen
  · intro st fs t h hne
    rcases getApiKey_shape st fs with ⟨_, hg⟩ | ⟨_, _, u, _, hg⟩ | ⟨_, hg⟩ <;> rw [hg] at h hne ⊢
    · simp at h
    · exact absurd rfl hne
    · rcases refreshFromFile_shape st fs with ⟨hn, _⟩ | ⟨s, hs, hcache, hlock, _, fields, hp, hl, hlen⟩
      · rw [hn] at h; exact absurd h (by simp)
      · rw [hs] at h
        injection h with h
        subst h
        exact ⟨hcache, hlock, fields, hp, hl, hlen⟩

/-- Claim C10: the returned and cached token is the string stored in the
file's `access_token` field exactly as written — validation strips a copy for
the emptiness check, but the token itself is never trimmed, so leading and
trailing whitespace survives into the cache and the return value. -/
theorem get_api_key_preserves_whitespace (fs : FileState)
    (fields : List (String × Json)) (s : String)
    (he : fs.fileExists = true) (hr : fs.readable = true)
    (hp : fs.parsed = some (Json.obj fields))
    (hl : lookupField fields "access_token" = some (Json.str s))
    (ht : (pyStrip s).length ≠ 0) :
    getApiKey initialCache fs = ⟨some s, ⟨some s, fs.mtime⟩, 1, true⟩ := by
  rcases fs with ⟨e, r, m, p⟩
  simp only at he hr hp
  subst he hr hp
  rw [getApiKey, if_neg (by simp), if_neg (by simp [initialCache])]
  have hv : validateToken (lookupField fields "access_token") = some s :=
    validateToken_eq_some.mpr ⟨hl, ht⟩
  simp [refreshFromFile, hv]

/-- When every attempt fails and no shutdown is requested, the loop from
iteration `k` (with `fuel` iterations remaining) spawns at every iteration,
sleeps between consecutive ones, and propagates the last attempt's failure. -/
theorem runWithRetryLoop_allFail (maxRetries : Nat) (retryDelay : ℚ)
    (attempts : Nat → Outcome) (hfail : ∀ i, Fails (attempts i)) :
    ∀ (fuel k : Nat), k + fuel = maxRetries + 1 → 1 ≤ fuel →
      runWithRetryLoop maxRetries retryDelay attempts (fun _ => false) (fun _ => false)
          fuel k =
        (Except.error (attempts maxRetries), failEventTrace retryDelay k (fuel - 1)) := by
  intro fuel
  induction fuel with
  | zero => intro k _ h; omega
  | succ f ih =>
    intro k hk _
    have hf := hfail k
    rcases hN : attempts k with _ | c | _ | _ <;> rw [hN] at hf
    · simp [Fails] at hf
    · replace hf : c ≠ 0 := hf
      rcases f with _ | g
      · have hkN : k = maxRetries := by omega
        subst hkN
        simp [runWithRetryLoop, hN, hf, failEventTrace]
      · have hlt : k < maxRetries := by omega
        rw [runWithRetryLoop, ih (k + 1) (by omega) (by omega)]
        simp [hN, hf, hlt, failEventTrace]
    · simp [Fails] at hf
    · rcases f with _ | g
      · have hkN : k = maxRetries := by omega
        subst hkN
        simp [runWithRetryLoop, hN, failEventTrace]
      · have hlt : k < maxRetries := by omega
        rw [runWithRetryLoop, ih (k + 1) (by omega) (by omega)]
        simp [hN, hlt, failEventTrace]

theorem spawnCount_failEventTrace (retryDelay : ℚ) :
    ∀ (len k : Nat), spawnCount (failEventTrace retryDelay k len) = len + 1
  | 0, k => by simp [failEventTrace, spawnCount]
  | len + 1, k => by
    simp [failEventTrace, spawnCount, spawnCount_failEventTrace retryDelay len (k + 1)]

theorem sleepCount_failEventTrace (retryDelay : ℚ) :
    ∀ (len k : Nat), sleepCount (failEventTrace retryDelay k len) = len
  | 0, k => by simp [failEventTrace, sleepCount]
  | len + 1, k => by
    simp [failEventTrace, sleepCount, sleepCount_failEventTrace retryDelay len (k + 1)]

/-- Claim C3: with `max_retries = N` and every attempt raising a failure
while no shutdown is requested, `run_with_retry` invokes `run_proxy` exactly
`N + 1` times, sleeps `retry_delay` between consecutive attempts (`N`
sleeps, one between each adjacent pair of spawns, none after the last), and
propagates the terminal failure to the caller. -/
theorem run_with_retry_exhausts_attempts (maxRetries : Nat) (retryDelay : ℚ)
    (attempts : Nat → Outcome) (hfail : ∀ i, Fails (attempts i)) :
    runWithRetry maxRetries retryDelay attempts (fun _ => false) (fun _ => false) =
      (Except.error (attempts maxRetries), failEventTrace retryDelay 0 maxRetries) ∧
    spawnCount (failEventTrace retryDelay 0 maxRetries) = maxRetries + 1 ∧
    sleepCount (failEventTrace retryDelay 0 maxRetries) = maxRetries := by
  refine ⟨?_, spawnCount_failEventTrace _ _ _, sleepCount_failEventTrace _ _ _⟩
  have h := runWithRetryLoop_allFail maxRetries retryDelay attempts hfail
    (maxRetries + 1) 0 (by omega) (by omega)
  simpa [runWithRetry] using h

theorem runProxyOutcome_ok_or_exit (e : AttemptEnv) :
    runProxyOutcome e = Outcome.ok ∨ ∃ c, runProxyOutcome e = Outcome.exit c := by
  rcases e with ⟨key, sp, cx⟩
  rcases key with _ | k
  · exact Or.inr ⟨1, rfl⟩
  · by_cases hsp : sp = false
    · exact Or.inr ⟨1, by simp [runProxyOutcome, hsp]⟩
    · by_cases hcx : cx = 0
      · exact Or.inl (by simp [runProxyOutcome, hsp, hcx])
      · exact Or.inr ⟨cx, by simp [runProxyOutcome, hsp, hcx]⟩

theorem runProxyOutcome_ok_of (e : AttemptEnv) (h1 : e.apiKey.isSome = true)
    (h2 : e.spawnOk = true) (h3 : e.childExit = 0) : runProxyOutcome e = Outcome.ok := by
  rcases e with ⟨key, sp, cx⟩
  rcases key with _ | k
  · simp at h1
  · simp only at h2 h3
    subst h2 h3
    simp [runProxyOutcome]

theorem runProxyOutcome_exit_of (e : AttemptEnv) (c : Int) (h1 : e.apiKey.isSome = true)
    (h2 : e.spawnOk = true) (h3 : e.childExit = c) (hc : c ≠ 0) :
    runProxyOutcome e = Outcome.exit c := by
  rcases e with ⟨key, sp, cx⟩
  rcases key with _ | k
  · simp at h1
  · simp only at h2 h3
    subst h2 h3
    simp [runProxyOutcome, hc]

theorem runProxyOutcome_fail_of (e : AttemptEnv)
    (h : e.apiKey = none ∨ e.spawnOk = false) : runProxyOutcome e = Outcome.exit 1 := by
  rcases e with ⟨key, sp, cx⟩
  rcases key with _ | k
  · rfl
  · rcases h with h | h
    · simp at h
    · simp only at h
      subst h
      simp [runProxyOutcome]

/-- With attempts produced by `run_proxy`, the loop's result is always either
a normal return or a propagated `SystemExit`. -/
theorem runWithRetryLoop_no_uncaught (maxRetries : Nat) (retryDelay : ℚ)
    (envs : Nat → AttemptEnv) (sdBefore sdAfter : Nat → Bool) :
    ∀ (fuel k : Nat),
      (runWithRetryLoop maxRetries retryDelay (fun i => runProxyOutcome (envs i))
          sdBefore sdAfter fuel k).1 = Except.ok () ∨
      ∃ c, (runWithRetryLoop maxRetries retryDelay (fun i => runProxyOutcome (envs i))
          sdBefore sdAfter fuel k).1 = Except.error (Outcome.exit c) := by
  intro fuel
  induction fuel with
  | zero => intro k; exact Or.inl rfl
  | succ f ih =>
    intro k
    by_cases hsd : sdBefore k
    · exact Or.inl (by simp [runWithRetryLoop, hsd])
    · rcases runProxyOutcome_ok_or_exit (envs k) with ho | ⟨c, ho⟩
      · exact Or.inl (by simp [runWithRetryLoop, hsd, ho])
      · by_cases hc : c = 0
        · exact Or.inl (by simp [runWithRetryLoop, hsd, ho, hc])
        · by_cases hsa : sdAfter k
          · exact Or.inl (by simp [runWithRetryLoop, hsd, ho, hc, hsa])
          · by_cases hlt : k < maxRetries
            · rcases ih (k + 1) with h1 | ⟨c', h1⟩
              · exact Or.inl (by simp [runWithRetryLoop, hsd, ho, hc, hsa, hlt, h1])
              · exact Or.inr ⟨c', by simp [runWithRetryLoop, hsd, ho, hc, hsa, hlt, h1]⟩
            · exact Or.inr ⟨c, by simp [runWithRetryLoop, hsd, ho, hc, hsa, hlt]⟩

/-- Claim C9: no exception escapes the top-level entry point uncaught.
`main` calls `run_with_retry` with attempts produced by `run_proxy`, which
converts every internal failure into `SystemExit`; hence the whole run either
returns normally or propagates a `SystemExit` — Python's orderly process
exit — and never lets a bare exception or a `KeyboardInterrupt` escape. -/
theorem main_no_uncaught_exception (maxRetries : Nat) (retryDelay : ℚ)
    (envs : Nat → AttemptEnv) (sdBefore sdAfter : Nat → Bool) :
    (runWithRetry maxRetries retryDelay (fun i => runProxyOutcome (envs i))
        sdBefore sdAfter).1 = Except.ok () ∨
    ∃ c, (runWithRetry maxRetries retryDelay (fun i => runProxyOutcome (envs i))
        sdBefore sdAfter).1 = Except.error (Outcome.exit c) :=
  runWithRetryLoop_no_uncaught maxRetries retryDelay envs sdBefore sdAfter
    (maxRetries + 1) 0

/-- A spawn recorded for attempt `i` means the top-of-loop shutdown check of
iteration `i` observed `shutdown_requested = false`. -/
theorem runWithRetryLoop_spawn_not_shutdown (maxRetries : Nat) (retryDelay : ℚ)
    (attempts : Nat → Outcome) (sdBefore sdAfter : Nat → Bool) :
    ∀ (fuel k i : Nat),
      Event.spawn i ∈ (runWithRetryLoop maxRetries retryDelay attempts
          sdBefore sdAfter fuel k).2 →
      sdBefore i = false := by
  intro fuel
  induction fuel with
  | zero => intro k i h; simp [runWithRetryLoop] at h
  | succ f ih =>
    intro k i h
    by_cases hsd : sdBefore k
    · simp [runWithRetryLoop, hsd] at h
    · have hk : sdBefore k = false := by simpa using hsd
      rcases ho : attempts k with _ | c | _ | _ <;>
        simp only [runWithRetryLoop, hsd, ho, if_false, Bool.false_eq_true] at h
      · simp at h
        subst h
        exact hk
      · by_cases hc : c = 0
        · simp [hc] at h
          subst h
          exact hk
        · by_cases hsa : sdAfter k
          · simp [hc, hsa] at h
            subst h
            exact hk
          · by_cases hlt : k < maxRetries
            · simp [hc, hsa, hlt] at h
              rcases h with h | h
              · subst h; exact hk
              · exact ih (k + 1) i h
            · simp [hc, hsa, hlt] at h
              subst h
              exact hk
      · simp at h
        subst h
        exact hk
      · by_cases hsa : sdAfter k
        · simp [hsa] at h
          subst h
          exact hk
        · by_cases hlt : k < maxRetries
          · simp [hsa, hlt] at h
            rcases h with h | h
            · subst h; exact hk
            · exact ih (k + 1) i h
          · simp [hsa, hlt] at h
            subst h
            exact hk

/-- Claim C6: a shutdown signal only sets the flags and stops the child with
the terminate / 5-second grace / kill sequence; the handler never exits the
supervisor's own process; and no spawn ever happens at an iteration whose
shutdown check observed `shutdown_requested = true`. -/
theorem signal_handler_only_stops_child :
    (∀ (st : RunnerFlags) (g : Bool),
        (signalHandler st g).exitsOwnProcess = false ∧
        (signalHandler st g).flags.shutdownRequested = true ∧
        (signalHandler st g).flags.running = false ∧
        (signalHandler st g).actions =
          (if st.processAlive = some true then
            (if g then [ChildAction.terminate, ChildAction.waitGrace 5]
             else [ChildAction.terminate, ChildAction.waitGrace 5, ChildAction.kill])
           else [])) ∧
    (∀ (maxRetries : Nat) (retryDelay : ℚ) (attempts : Nat → Outcome)
        (sdBefore sdAfter : Nat → Bool) (i : Nat),
        Event.spawn i ∈ (runWithRetry maxRetries retryDelay attempts sdBefore sdAfter).2 →
        sdBefore i = false) := by
  constructor
  · intro st g
    rcases st with ⟨p, r, s⟩
    rcases p with _ | b
    · simp [signalHandler, finallyCleanup]
    · cases b <;> cases g <;> simp [signalHandler, finallyCleanup]
  · intro maxRetries retryDelay attempts sdBefore sdAfter i h
    exact runWithRetryLoop_spawn_not_shutdown maxRetries retryDelay attempts
      sdBefore sdAfter (maxRetries + 1) 0 i h

/-- Claim C5: the supervisor's exit status is 0 on shutdown observed before
the first attempt and on shutdown observed right after a failing first
attempt; 0 when the first attempt's child exits cleanly; the child's own exit
code when every attempt ends with the child exiting that non-zero code and
retries are exhausted; and 1 when every attempt fails to obtain credentials
or to spawn. -/
theorem supervisor_exit_status :
    (∀ (maxRetries : Nat) (retryDelay : ℚ) (attempts : Nat → Outcome)
        (sdBefore sdAfter : Nat → Bool), sdBefore 0 = true →
        exitStatus (runWithRetry maxRetries retryDelay attempts sdBefore sdAfter).1 = 0) ∧
    (∀ (maxRetries : Nat) (retryDelay : ℚ) (attempts : Nat → Outcome)
        (sdAfter : Nat → Bool) (c : Int),
        attempts 0 = Outcome.exit c → sdAfter 0 = true →
        exitStatus (runWithRetry maxRetries retryDelay attempts
          (fun _ => false) sdAfter).1 = 0) ∧
    (∀ (maxRetries : Nat) (retryDelay : ℚ) (envs : Nat → AttemptEnv),
        (envs 0).apiKey.isSome = true → (envs 0).spawnOk = true →
        (envs 0).childExit = 0 →
        exitStatus (runWithRetry maxRetries retryDelay
          (fun i => runProxyOutcome (envs i)) (fun _ => false) (fun _ => false)).1 = 0) ∧
    (∀ (maxRetries : Nat) (retryDelay : ℚ) (envs : Nat → AttemptEnv) (c : Int),
        c ≠ 0 →
        (∀ i, (envs i).apiKey.isSome = true ∧ (envs i).spawnOk = true ∧
          (envs i).childExit = c) →
        exitStatus (runWithRetry maxRetries retryDelay
          (fun i => runProxyOutcome (envs i)) (fun _ => false) (fun _ => false)).1 = c) ∧
    (∀ (maxRetries : Nat) (retryDelay : ℚ) (envs : Nat → AttemptEnv),
        (∀ i, (envs i).apiKey = none ∨ (envs i).spawnOk = false) →
        exitStatus (runWithRetry maxRetries retryDelay
          (fun i => runProxyOutcome (envs i)) (fun _ => false) (fun _ => false)).1 = 1) := by
  refine ⟨?_, ?_, ?_, ?_, ?_⟩
  · intro maxRetries retryDelay attempts sdBefore sdAfter h
    simp [runWithRetry, runWithRetryLoop, h, exitStatus]
  · intro maxRetries retryDelay attempts sdAfter c h0 hsa
    by_cases hc : c = 0 <;>
      simp [runWithRetry, runWithRetryLoop, h0, hsa, hc, exitStatus]
  · intro maxRetries retryDelay envs h1 h2 h3
    have h0 : runProxyOutcome (envs 0) = Outcome.ok := runProxyOutcome_ok_of _ h1 h2 h3
    simp [runWithRetry, runWithRetryLoop, h0, exitStatus]
  · intro maxRetries retryDelay envs c hc h
    have hA : ∀ i, runProxyOutcome (envs i) = Outcome.exit c := fun i =>
      runProxyOutcome_exit_of _ c (h i).1 (h i).2.1 (h i).2.2 hc
    have hfail : ∀ i, Fails (runProxyOutcome (envs i)) := by
      intro i
      rw [hA i]
      exact hc
    have hres := runWithRetryLoop_allFail maxRetries retryDelay
      (fun i => runProxyOutcome (envs i)) hfail (maxRetries + 1) 0 (by omega) (by omega)
    simp only [runWithRetry, hres, hA maxRetries, exitStatus]
  · intro maxRetries retryDelay envs h
    have hA : ∀ i, runProxyOutcome (envs i) = Outcome.exit 1 := fun i =>
      runProxyOutcome_fail_of _ (h i)
    have hfail : ∀ i, Fails (runProxyOutcome (envs i)) := by
      intro i
      rw [hA i]
      exact one_ne_zero
    have hres := runWithRetryLoop_allFail maxRetries retryDelay
      (fun i => runProxyOutcome (envs i)) hfail (maxRetries + 1) 0 (by omega) (by omega)
    simp only [runWithRetry, hres, hA maxRetries, exitStatus]

/-- Claim C7: with the credentials file absent, `get_api_key` returns `None`
before acquiring the lock, without reading or touching the cache; `run_proxy`
then exits with status 1 without reaching the `Popen` call; and the whole
supervisor run exits with status 1. -/
theorem missing_credentials_fail_fast :
    (∀ (st : CacheState) (fs : FileState), fs.fileExists = false →
        getApiKey st fs = ⟨none, st, 0, false⟩) ∧
    (∀ e : AttemptEnv, e.apiKey = none →
        runProxyOutcome e = Outcome.exit 1 ∧ spawnAttempted e = false) ∧
    (∀ (maxRetries : Nat) (retryDelay : ℚ) (envs : Nat → AttemptEnv),
        (∀ i, (envs i).apiKey = none) →
        exitStatus (runWithRetry maxRetries retryDelay
          (fun i => runProxyOutcome (envs i)) (fun _ => false) (fun _ => false)).1 = 1) := by
  refine ⟨?_, ?_, ?_⟩
  · intro st fs h
    rw [getApiKey, if_pos h]
  · intro e h
    rcases e with ⟨key, sp, cx⟩
    simp only at h
    subst h
    exact ⟨rfl, rfl⟩
  · intro maxRetries retryDelay envs h
    have hA : ∀ i, runProxyOutcome (envs i) = Outcome.exit 1 := fun i =>
      runProxyOutcome_fail_of _ (Or.inl (h i))
    have hfail : ∀ i, Fails (runProxyOutcome (envs i)) := by
      intro i
      rw [hA i]
      exact one_ne_zero
    have hres := runWithRetryLoop_allFail maxRetries retryDelay
      (fun i => runProxyOutcome (envs i)) hfail (maxRetries + 1) 0 (by omega) (by omega)
    simp only [runWithRetry, hres, hA maxRetries, exitStatus]

/-- Counterexample to claim C8 as stated: after a clean first attempt (key
retrieved, spawn succeeded, child exited 0, no lingering child at entry), the
child handle is not cleared — `self.process` still holds the exited process
instead of `None`. -/
theorem run_proxy_keeps_child_handle_counterexample :
    runProxyProcessAfter none ⟨some "key", true, 0⟩ false = some false ∧
    runProxyProcessAfter none ⟨some "key", true, 0⟩ false ≠ none :=
  ⟨rfl, by decide⟩

/-- Claim C8 (amended): at the end of each attempt's cleanup no child is left
alive — a handle that is set refers to an exited process, and a still-live
child at cleanup receives terminate, a 5-second grace wait, then kill — but
the handle itself is never cleared back to `None`. -/
theorem run_proxy_cleanup_leaves_no_live_child (child : Option Bool)
    (e : AttemptEnv) (g : Bool) (h : child ≠ some true) :
    runProxyProcessAfter child e g ≠ some true ∧
    (finallyCleanup (some true) g).1 = some false ∧
    (finallyCleanup (some true) g).2 =
      (if g then [ChildAction.terminate, ChildAction.waitGrace 5]
       else [ChildAction.terminate, ChildAction.waitGrace 5, ChildAction.kill]) := by
  refine ⟨?_, by cases g <;> rfl, by cases g <;> rfl⟩
  rcases e with ⟨key, sp, cx⟩
  rcases key with _ | k
  · exact h
  · by_cases hsp : sp = false
    · rcases child with _ | b
      · simp [runProxyProcessAfter, hsp, finallyCleanup]
      · cases b
        · simp [runProxyProcessAfter, hsp, finallyCleanup]
        · exact absurd rfl h
    · simp [runProxyProcessAfter, hsp, finallyCleanup]

theorem get_api_key_cache_hit_idempotent_witness :
    getApiKey ⟨some "tok", 10⟩ ⟨true, true, 5, none⟩ =
      ⟨some "tok", ⟨some "tok", 10⟩, 0, true⟩ ∧
    (getApiKey (getApiKey initialCache ⟨true, true, 7,
        some (Json.obj [("access_token", Json.str "tok")])⟩).cache
      ⟨true, true, 7, some (Json.obj [("access_token", Json.str "tok")])⟩).parses = 0 :=
  ⟨get_api_key_cache_hit_idempotent.1 ⟨some "tok", 10⟩ ⟨true, true, 5, none⟩ "tok"
      rfl rfl (by decide),
   (get_api_key_cache_hit_idempotent.2 initialCache
      ⟨true, true, 7, some (Json.obj [("access_token", Json.str "tok")])⟩ "tok"
      (by decide)).2.1⟩

theorem run_with_retry_exhausts_attempts_witness :
    runWithRetry 1 5 (fun _ => Outcome.exit 2) (fun _ => false) (fun _ => false) =
      (Except.error (Outcome.exit 2), failEventTrace 5 0 1) ∧
    spawnCount (failEventTrace 5 0 1) = 2 ∧
    sleepCount (failEventTrace 5 0 1) = 1 :=
  run_with_retry_exhausts_attempts 1 5 (fun _ => Outcome.exit 2)
    (fun _ => (by decide : (2 : Int) ≠ 0))

theorem get_api_key_cache_invariant_witness :
    (getApiKey ⟨some "tok", 3⟩ ⟨false, true, 9, none⟩).cache = ⟨some "tok", 3⟩ ∧
    cacheInv (getApiKey initialCache ⟨true, true, 7,
        some (Json.obj [("access_token", Json.str "tok")])⟩).cache ∧
    (getApiKey initialCache ⟨true, true, 7,
        some (Json.obj [("access_token", Json.str "tok")])⟩).cache = ⟨some "tok", 7⟩ :=
  ⟨get_api_key_cache_invariant.1 ⟨some "tok", 3⟩ ⟨false, true, 9, none⟩ rfl,
   get_api_key_cache_invariant.2.1 initialCache
      ⟨true, true, 7, some (Json.obj [("access_token", Json.str "tok")])⟩
      (by intro t ht; simp [initialCache] at ht),
   (get_api_key_cache_invariant.2.2 initialCache
      ⟨true, true, 7, some (Json.obj [("access_token", Json.str "tok")])⟩ "tok"
      (by decide) (by decide)).1⟩

theorem supervisor_exit_status_witness :
    exitStatus (runWithRetry 2 5 (fun _ => Outcome.exit 1)
      (fun _ => true) (fun _ => false)).1 = 0 ∧
    exitStatus (runWithRetry 2 5 (fun _ => Outcome.exit 3)
      (fun _ => false) (fun _ => true)).1 = 0 ∧
    exitStatus (runWithRetry 2 5 (fun _ => runProxyOutcome ⟨some "k", true, 0⟩)
      (fun _ => false) (fun _ => false)).1 = 0 ∧
    exitStatus (runWithRetry 2 5 (fun _ => runProxyOutcome ⟨some "k", true, 7⟩)
      (fun _ => false) (fun _ => false)).1 = 7 ∧
    exitStatus (runWithRetry 2 5 (fun _ => runProxyOutcome ⟨none, true, 0⟩)
      (fun _ => false) (fun _ => false)).1 = 1 :=
  ⟨supervisor_exit_status.1 2 5 (fun _ => Outcome.exit 1)
      (fun _ => true) (fun _ => false) rfl,
   supervisor_exit_status.2.1 2 5 (fun _ => Outcome.exit 3) (fun _ => true) 3 rfl rfl,
   supervisor_exit_status.2.2.1 2 5 (fun _ => ⟨some "k", true, 0⟩) rfl rfl rfl,
   supervisor_exit_status.2.2.2.1 2 5 (fun _ => ⟨some "k", true, 7⟩) 7
      (by decide) (fun _ => ⟨rfl, rfl, rfl⟩),
   supervisor_exit_status.2.2.2.2 2 5 (fun _ => ⟨none, true, 0⟩) (fun _ => Or.inl rfl)⟩

theorem signal_handler_only_stops_child_witness :
    (signalHandler ⟨some true, true, false⟩ false).exitsOwnProcess = false ∧
    ((fun _ => false) : Nat → Bool) 0 = false :=
  ⟨(signal_handler_only_stops_child.1 ⟨some true, true, false⟩ false).1,
   signal_handler_only_stops_child.2 0 5 (fun _ => Outcome.ok)
      (fun _ => false) (fun _ => false) 0 (by decide)⟩

theorem missing_credentials_fail_fast_witness :
    getApiKey initialCache ⟨false, true, 0, none⟩ = ⟨none, initialCache, 0, false⟩ ∧
    (runProxyOutcome ⟨none, true, 0⟩ = Outcome.exit 1 ∧
      spawnAttempted ⟨none, true, 0⟩ = false) ∧
    exitStatus (runWithRetry 1 5 (fun _ => runProxyOutcome ⟨none, true, 0⟩)
      (fun _ => false) (fun _ => false)).1 = 1 :=
  ⟨missing_credentials_fail_fast.1 initialCache ⟨false, true, 0, none⟩ rfl,
   missing_credentials_fail_fast.2.1 ⟨none, true, 0⟩ rfl,
   missing_credentials_fail_fast.2.2 1 5 (fun _ => ⟨none, true, 0⟩) (fun _ => rfl)⟩

theorem run_proxy_cleanup_leaves_no_live_child_witness :
    runProxyProcessAfter none ⟨some "k", false, 0⟩ true ≠ some true ∧
    (finallyCleanup (some true) true).1 = some false :=
  ⟨(run_proxy_cleanup_leaves_no_live_child none ⟨some "k", false, 0⟩ true
      (by decide)).1,
   (run_proxy_cleanup_leaves_no_live_child none ⟨some "k", false, 0⟩ true
      (by decide)).2.1⟩

theorem get_api_key_preserves_whitespace_witness :
    getApiKey initialCache
        ⟨true, true, 7, some (Json.obj [("access_token", Json.str " abc ")])⟩ =
      ⟨some " abc ", ⟨some " abc ", 7⟩, 1, true⟩ :=
  get_api_key_preserves_whitespace
    ⟨true, true, 7, some (Json.obj [("access_token", Json.str " abc ")])⟩
    [("access_token", Json.str " abc ")] " abc " rfl rfl rfl rfl (by decide)
